import Mathlib

/-
Verification of the s100py attribute-mapping and write engine (src/s100py/s100.py)
and the S-102 grid ingestion utilities (src/s100py/s102/utils.py).

Python values are modelled as follows: attribute maps (`self._attributes`) become
association lists, Python exceptions become an explicit error type threaded through
`Except`, and CPython floats are modelled by their shortest round-trip decimal
representation (sign, significant digits, decimal exponent).  That representation
is injective on doubles and `repr` of a double is a function of it, so the string
conversions of FeatureInformation translate faithfully; decimal-string parsing in
this model agrees with CPython for every decimal literal of at most 15 significant
digits, which covers all inputs used below.
-/

/-- Association-list lookup; models Python dict indexing (`d[k]`), where a missing
key raises KeyError (returned here as `none`). -/
def alookup {α β : Type} [DecidableEq α] : List (α × β) → α → Option β
  | [], _ => none
  | (k2, v) :: rest, k => if k2 = k then some v else alookup rest k

/-- Association-list update; models Python dict assignment (`d[k] = v`): replaces
in place when the key exists, appends otherwise (dicts preserve insertion order). -/
def aset {α β : Type} [DecidableEq α] : List (α × β) → α → β → List (α × β)
  | [], k, v => [(k, v)]
  | (k2, v2) :: rest, k, v =>
      if k2 = k then (k, v) :: rest else (k2, v2) :: aset rest k v

theorem alookup_aset_self {α β : Type} [DecidableEq α] (l : List (α × β)) (k : α) (v : β) :
    alookup (aset l k v) k = some v := by
  induction l with
  | nil => simp [aset, alookup]
  | cons hd tl ih =>
      obtain ⟨k2, v2⟩ := hd
      by_cases h : k2 = k
      · simp [aset, alookup, h]
      · simp [aset, alookup, h, ih]

theorem alookup_aset_ne {α β : Type} [DecidableEq α] (l : List (α × β)) (k k2 : α) (v : β)
    (h : k2 ≠ k) : alookup (aset l k v) k2 = alookup l k2 := by
  have hk : ¬ k = k2 := fun hh => h hh.symm
  induction l with
  | nil => simp [aset, alookup, hk]
  | cons hd tl ih =>
      obtain ⟨k3, v3⟩ := hd
      by_cases h3 : k3 = k
      · have hk3 : ¬ k3 = k2 := by rw [h3]; exact hk
        simp [aset, alookup, h3, hk, hk3]
      · by_cases h4 : k3 = k2 <;> simp [aset, alookup, h3, h4, h, ih]

/-! ## The HDF5 type-class table (s100.py lines 23-53)

`H5T_CLASS_T` maps h5py type constants to their string names; `_H5T_Types` groups
those string names by the Python type used to interpret range fields.  Only the
string lists matter to the code, so they are transcribed directly. -/

/-- The string names of `_H5T_Types[int]` in s100.py. -/
def H5T_Types_int : List String :=
  ["H5T_INTEGER", "H5T_NATIVE_INT8", "H5T_NATIVE_UINT8", "H5T_NATIVE_INT16",
   "H5T_NATIVE_UINT16", "H5T_NATIVE_INT32", "H5T_NATIVE_UINT32", "H5T_NATIVE_INT64",
   "H5T_NATIVE_UINT64"]

/-- The string names of `_H5T_Types[float]` in s100.py: `H5T_CLASS_T[h5py.h5t.FLOAT]`
(which is the string H5T_NATIVE_FLOAT) plus the literal H5T_FLOAT. -/
def H5T_Types_float : List String := ["H5T_NATIVE_FLOAT", "H5T_FLOAT"]

/-- The string names of `_H5T_Types[str]` in s100.py. -/
def H5T_Types_str : List String := ["H5T_C_S1", "H5T_STRING"]

/-! ## CPython float model -/

/-- A CPython double, modelled by its shortest round-trip decimal representation:
the value is `(-1)^neg * 0.d1 d2 ... dn * 10 ^ decpt` where `digits = [d1, ..., dn]`
has no trailing zeros and a nonzero leading digit; `digits = []` encodes 0.0. -/
structure PyFloat where
  neg : Bool
  digits : List Nat
  decpt : Int
deriving DecidableEq, Repr

/-- Decimal digit characters of a natural number (CPython `str` of a nonneg int). -/
def charsOfNat (n : Nat) : List Char := (Nat.repr n).data

/-- Concatenated digit characters of a digit list. -/
def digitsChars (l : List Nat) : List Char := List.flatten (l.map charsOfNat)

/-- A run of zero characters, used for fixed-notation padding. -/
def zerosChars (n : Nat) : List Char := List.replicate n '0'

/-- Sign prefix of a float's repr. -/
def pySign (f : PyFloat) : List Char := if f.neg then ['-'] else []

/-- Mantissa of CPython exponential notation: first digit, then a point and the
remaining digits when there are any (repr(1e16) is 1e+16, repr(1.5e20) is 1.5e+20). -/
def pyMantissaChars : List Nat → List Char
  | [] => ['0']
  | [d] => charsOfNat d
  | d :: rest => charsOfNat d ++ '.' :: digitsChars rest

/-- Exponent suffix of CPython exponential notation: explicit sign and at least
two digits (repr(1e16) ends in e+16, repr(1e-5) ends in e-05). -/
def pyExpChars (e : Int) : List Char :=
  (if e < 0 then ['-'] else ['+']) ++
    (if e.natAbs < 10 then '0' :: charsOfNat e.natAbs else charsOfNat e.natAbs)

/-- Character string of CPython `repr(float)` (identical to `str(float)` in
Python 3): exponential notation exactly when the decimal point position is at
most -4 or greater than 16, fixed notation otherwise, and 0.0 spelled with one
fractional zero. -/
def pyFloatReprAux (f : PyFloat) : List Char :=
  if f.digits = [] then pySign f ++ ['0', '.', '0']
  else if f.decpt ≤ -4 ∨ f.decpt > 16 then
    pySign f ++ pyMantissaChars f.digits ++ 'e' :: pyExpChars (f.decpt - 1)
  else if f.decpt ≤ 0 then
    pySign f ++ ['0', '.'] ++ zerosChars f.decpt.natAbs ++ digitsChars f.digits
  else if (f.digits.length : Int) ≤ f.decpt then
    pySign f ++ digitsChars f.digits ++ zerosChars (f.decpt.toNat - f.digits.length) ++ ['.', '0']
  else
    pySign f ++ digitsChars (f.digits.take f.decpt.toNat) ++
      '.' :: digitsChars (f.digits.drop f.decpt.toNat)

/-- CPython `str(float)`. -/
def pyFloatRepr (f : PyFloat) : String := String.mk (pyFloatReprAux f)

/-- Drops leading zero digits, decrementing the decimal point position once per
dropped zero (normalization step of decimal-to-float parsing). -/
def normalizeDigits : List Nat → Int → List Nat × Int
  | 0 :: rest, d => normalizeDigits rest (d - 1)
  | l, d => (l, d)

/-- Drops leading zeros of a digit list. -/
def stripLeadingZeroDigits : List Nat → List Nat
  | 0 :: rest => stripLeadingZeroDigits rest
  | l => l

/-- Drops trailing zeros of a digit list. -/
def stripTrailingZeroDigits (l : List Nat) : List Nat :=
  (stripLeadingZeroDigits l.reverse).reverse

/-- True when every character is a decimal digit. -/
def charsAllDigits (l : List Char) : Bool := l.all (fun c => c.isDigit)

/-- Digit values of a character run. -/
def charsToDigits (l : List Char) : List Nat := l.map (fun c => c.toNat - 48)

/-- Parses a nonempty all-digit character run as a natural number. -/
def parseNatChars (l : List Char) : Option Nat :=
  if l.isEmpty || !charsAllDigits l then none
  else some ((charsToDigits l).foldl (fun acc d => acc * 10 + d) 0)

/-- Parses an optionally signed all-digit run as an integer (exponent field). -/
def parseSignedNatChars : List Char → Option Int
  | '-' :: rest => (parseNatChars rest).map (fun n => -(n : Int))
  | '+' :: rest => (parseNatChars rest).map (fun n => (n : Int))
  | l => (parseNatChars l).map (fun n => (n : Int))

/-- Splits a character list at the first exponent marker. -/
def splitAtExpChar : List Char → List Char × Option (List Char)
  | [] => ([], none)
  | c :: rest =>
      if c = 'e' || c = 'E' then ([], some rest)
      else
        match splitAtExpChar rest with
        | (m, e) => (c :: m, e)

/-- Splits a character list at the first decimal point. -/
def splitAtDotChar : List Char → List Char × Option (List Char)
  | [] => ([], none)
  | c :: rest =>
      if c = '.' then ([], some rest)
      else
        match splitAtDotChar rest with
        | (m, e) => (c :: m, e)

/-- CPython `float(str)` on decimal literals, in the shortest-repr model: parses
sign, mantissa and optional exponent, then normalizes the digit string.  Exact for
decimal literals of at most 15 significant digits (every such literal is its own
shortest representation); non-numeric strings give `none` (Python ValueError). -/
def pyFloatOfString (s : String) : Option PyFloat :=
  let signAndRest : Bool × List Char :=
    match s.data with
    | '-' :: rest => (true, rest)
    | '+' :: rest => (false, rest)
    | l => (false, l)
  let me := splitAtExpChar signAndRest.2
  let idf := splitAtDotChar me.1
  let intPart := idf.1
  let fracPart := (idf.2).getD []
  if !charsAllDigits intPart || !charsAllDigits fracPart then none
  else if intPart.isEmpty && fracPart.isEmpty then none
  else
    match (match me.2 with
           | none => some (0 : Int)
           | some ec => parseSignedNatChars ec) with
    | none => none
    | some e =>
        let nd := normalizeDigits (charsToDigits intPart ++ charsToDigits fracPart)
          ((intPart.length : Int) + e)
        let ds := stripTrailingZeroDigits nd.1
        if ds.isEmpty then some ⟨signAndRest.1, [], 0⟩ else some ⟨signAndRest.1, ds, nd.2⟩

/-- Little-endian decimal digits of a natural number (structural, fuel = n). -/
def natDigitsAux : Nat → Nat → List Nat
  | 0, _ => []
  | _ + 1, 0 => []
  | fuel + 1, n => (n % 10) :: natDigitsAux fuel (n / 10)

/-- CPython `int(str)` on an optionally signed decimal literal (Python
`int(...)`, ValueError on anything else, returned as `none`). -/
def pyIntOfString (s : String) : Option Int := parseSignedNatChars s.data

/-- CPython `float(int)`: every integer of at most 15 digits used here converts
exactly. -/
def pyFloatOfInt (n : Int) : PyFloat :=
  let ds := (natDigitsAux n.natAbs n.natAbs).reverse
  ⟨decide (n < 0), stripTrailingZeroDigits ds, (ds.length : Int)⟩

/-- CPython `int(float)`: truncation toward zero. -/
def pyFloatTruncInt (f : PyFloat) : Int :=
  if f.decpt ≤ 0 then 0
  else
    let digs := f.digits.take f.decpt.toNat ++
      List.replicate (f.decpt.toNat - f.digits.length) 0
    let n : Nat := digs.foldl (fun acc d => acc * 10 + d) 0
    if f.neg then -(n : Int) else (n : Int)

/-- Python exceptions raised by the code under verification. -/
inductive PyErr where
  | keyError
  | attributeError
  | valueError (msg : String)
  | s102Exception (msg : String)
deriving DecidableEq, Repr

/-- A Python value flowing through the range-field coercions: int, float or str. -/
inductive PyVal where
  | int (n : Int)
  | float (f : PyFloat)
  | str (s : String)
deriving DecidableEq, Repr

/-- CPython `int(val)` as used by `_convert_to_string_based_on_datatype`. -/
def pyIntOf : PyVal → Except PyErr Int
  | PyVal.int n => Except.ok n
  | PyVal.float f => Except.ok (pyFloatTruncInt f)
  | PyVal.str s =>
      match pyIntOfString s with
      | some n => Except.ok n
      | none => Except.error (PyErr.valueError "invalid literal for int with base 10")

/-- CPython `float(val)` as used by the range-field coercions. -/
def pyFloatOfVal : PyVal → Except PyErr PyFloat
  | PyVal.float f => Except.ok f
  | PyVal.int n => Except.ok (pyFloatOfInt n)
  | PyVal.str s =>
      match pyFloatOfString s with
      | some f => Except.ok f
      | none => Except.error (PyErr.valueError "could not convert string to float")

/-- CPython `str(val)`. -/
def pyStrOf : PyVal → String
  | PyVal.int n => toString n
  | PyVal.float f => pyFloatRepr f
  | PyVal.str s => s

/-- The inferred Python type of a range field (`_python_datatype` return value). -/
inductive PyType where
  | int
  | float
  | str
deriving DecidableEq, Repr

/-- `FeatureInformation._python_datatype` (s100.py lines 1160-1178): consult the
datatype attribute; unset datatype (KeyError) defaults to str; otherwise classify
through the `_H5T_Types` table, anything unhandled falling back to str. -/
def python_datatype (attrs : List (String × String)) : PyType :=
  match alookup attrs "datatype" with
  | none => PyType.str
  | some dt =>
      if dt ∈ H5T_Types_int then PyType.int
      else if dt ∈ H5T_Types_float then PyType.float
      else PyType.str

/-- `FeatureInformation._convert_from_string_based_on_datatype` (s100.py 1180-1188). -/
def convert_from_string_based_on_datatype (attrs : List (String × String))
    (strVal : String) : Except PyErr PyVal :=
  match python_datatype attrs with
  | PyType.int =>
      match pyIntOfString strVal with
      | some n => Except.ok (PyVal.int n)
      | none => Except.error (PyErr.valueError "invalid literal for int with base 10")
  | PyType.float =>
      match pyFloatOfString strVal with
      | some f => Except.ok (PyVal.float f)
      | none => Except.error (PyErr.valueError "could not convert string to float")
  | PyType.str => Except.ok (PyVal.str strVal)

/-- The trailing-dot-zero strip of `_convert_to_string_based_on_datatype`:
`if str_val[-2:] == ".0": str_val = str_val[:-2]`. -/
def stripDotZero (l : List Char) : List Char :=
  if l.reverse.take 2 = ['0', '.'] then (l.reverse.drop 2).reverse else l

/-- `FeatureInformation._convert_to_string_based_on_datatype` (s100.py 1190-1200):
int fields store `str(int(val))`, float fields store `str(float(val))` with a
trailing dot-zero stripped, anything else stores `str(val)`. -/
def convert_to_string_based_on_datatype (attrs : List (String × String))
    (val : PyVal) : Except PyErr String :=
  match python_datatype attrs with
  | PyType.int =>
      match pyIntOf val with
      | Except.error e => Except.error e
      | Except.ok n => Except.ok (toString n)
  | PyType.float =>
      match pyFloatOfVal val with
      | Except.error e => Except.error e
      | Except.ok f => Except.ok (String.mk (stripDotZero (pyFloatReprAux f)))
  | PyType.str => Except.ok (pyStrOf val)

/-- A `FeatureInformation` record (one Group_F table row): its attribute map. -/
structure FeatureInformation where
  attrs : List (String × String)
deriving DecidableEq, Repr

/-- The `fill_value` setter (s100.py 1208-1210): converts and stores under the
fillValue key. -/
def FeatureInformation.set_fill_value (fi : FeatureInformation) (val : PyVal) :
    Except PyErr FeatureInformation :=
  match convert_to_string_based_on_datatype fi.attrs val with
  | Except.error e => Except.error e
  | Except.ok sv => Except.ok ⟨aset fi.attrs "fillValue" sv⟩

/-- The `fill_value` getter (s100.py 1203-1206): reads the stored string back
through the datatype-directed conversion. -/
def FeatureInformation.fill_value (fi : FeatureInformation) : Except PyErr PyVal :=
  match alookup fi.attrs "fillValue" with
  | none => Except.error PyErr.keyError
  | some sv => convert_from_string_based_on_datatype fi.attrs sv

/-- The `lower` setter (s100.py 1255-1257): same conversion, lower key. -/
def FeatureInformation.set_lower (fi : FeatureInformation) (val : PyVal) :
    Except PyErr FeatureInformation :=
  match convert_to_string_based_on_datatype fi.attrs val with
  | Except.error e => Except.error e
  | Except.ok sv => Except.ok ⟨aset fi.attrs "lower" sv⟩

/-- The `lower` getter. -/
def FeatureInformation.lower (fi : FeatureInformation) : Except PyErr PyVal :=
  match alookup fi.attrs "lower" with
  | none => Except.error PyErr.keyError
  | some sv => convert_from_string_based_on_datatype fi.attrs sv

/-- The `upper` setter: same conversion, upper key. -/
def FeatureInformation.set_upper (fi : FeatureInformation) (val : PyVal) :
    Except PyErr FeatureInformation :=
  match convert_to_string_based_on_datatype fi.attrs val with
  | Except.error e => Except.error e
  | Except.ok sv => Except.ok ⟨aset fi.attrs "upper" sv⟩

/-- The `upper` getter. -/
def FeatureInformation.upper (fi : FeatureInformation) : Except PyErr PyVal :=
  match alookup fi.attrs "upper" with
  | none => Except.error PyErr.keyError
  | some sv => convert_from_string_based_on_datatype fi.attrs sv

/-! ## Theorems about the range-field coercions (claims C2, C3) -/

theorem mem_float_not_int : ∀ dt ∈ H5T_Types_float, dt ∉ H5T_Types_int := by decide

theorem python_datatype_float (dt : String) (rest : List (String × String))
    (h : dt ∈ H5T_Types_float) :
    python_datatype (("datatype", dt) :: rest) = PyType.float := by
  have h2 : dt ∉ H5T_Types_int := mem_float_not_int dt h
  simp [python_datatype, alookup, h, h2]

theorem python_datatype_int (dt : String) (rest : List (String × String))
    (h : dt ∈ H5T_Types_int) :
    python_datatype (("datatype", dt) :: rest) = PyType.int := by
  simp [python_datatype, alookup, h]

theorem stripDotZero_append_dot_zero (x : List Char) :
    stripDotZero (x ++ ['.', '0']) = x := by
  have h : (x ++ ['.', '0']).reverse = '0' :: '.' :: x.reverse := by simp
  rw [stripDotZero, h]
  simp [List.take, List.drop]

/-- Claim C2: for a FeatureInformation record whose datatype is a float type-class
code, setting fill_value to the float 12000.0 stores the string form 12000 in the
attribute map and the typed accessor reads it back as the float 12000.0; for an
integer type-class code, setting fill_value to 42 round-trips to the integer 42
exactly; the lower and upper setters apply the same conversion. -/
theorem c2_range_coercion_round_trip (fdt idt : String)
    (hf : fdt ∈ H5T_Types_float) (hi : idt ∈ H5T_Types_int) :
    FeatureInformation.set_fill_value ⟨[("datatype", fdt)]⟩ (PyVal.float ⟨false, [1, 2], 5⟩) =
      Except.ok ⟨[("datatype", fdt), ("fillValue", "12000")]⟩ ∧
    FeatureInformation.fill_value ⟨[("datatype", fdt), ("fillValue", "12000")]⟩ =
      Except.ok (PyVal.float ⟨false, [1, 2], 5⟩) ∧
    FeatureInformation.set_fill_value ⟨[("datatype", idt)]⟩ (PyVal.int 42) =
      Except.ok ⟨[("datatype", idt), ("fillValue", "42")]⟩ ∧
    FeatureInformation.fill_value ⟨[("datatype", idt), ("fillValue", "42")]⟩ =
      Except.ok (PyVal.int 42) ∧
    FeatureInformation.set_lower ⟨[("datatype", fdt)]⟩ (PyVal.float ⟨false, [1, 2], 5⟩) =
      Except.ok ⟨[("datatype", fdt), ("lower", "12000")]⟩ ∧
    FeatureInformation.set_upper ⟨[("datatype", fdt)]⟩ (PyVal.float ⟨false, [1, 2], 5⟩) =
      Except.ok ⟨[("datatype", fdt), ("upper", "12000")]⟩ := by
  have e1 : python_datatype [("datatype", fdt)] = PyType.float :=
    python_datatype_float fdt [] hf
  have e2 : python_datatype [("datatype", fdt), ("fillValue", "12000")] = PyType.float :=
    python_datatype_float fdt _ hf
  have e3 : python_datatype [("datatype", idt)] = PyType.int :=
    python_datatype_int idt [] hi
  have e4 : python_datatype [("datatype", idt), ("fillValue", "42")] = PyType.int :=
    python_datatype_int idt _ hi
  have cf : convert_to_string_based_on_datatype [("datatype", fdt)]
      (PyVal.float ⟨false, [1, 2], 5⟩) = Except.ok "12000" := by
    unfold convert_to_string_based_on_datatype
    rw [e1]
    rfl
  have ci : convert_to_string_based_on_datatype [("datatype", idt)] (PyVal.int 42) =
      Except.ok "42" := by
    unfold convert_to_string_based_on_datatype
    rw [e3]
    rfl
  have gf : convert_from_string_based_on_datatype
      [("datatype", fdt), ("fillValue", "12000")] "12000" =
      Except.ok (PyVal.float ⟨false, [1, 2], 5⟩) := by
    unfold convert_from_string_based_on_datatype
    rw [e2]
    rfl
  have gi : convert_from_string_based_on_datatype
      [("datatype", idt), ("fillValue", "42")] "42" = Except.ok (PyVal.int 42) := by
    unfold convert_from_string_based_on_datatype
    rw [e4]
    rfl
  refine ⟨?_, ?_, ?_, ?_, ?_, ?_⟩
  · unfold FeatureInformation.set_fill_value
    rw [cf]
    rfl
  · unfold FeatureInformation.fill_value
    rw [show alookup [("datatype", fdt), ("fillValue", "12000")] "fillValue" =
      some "12000" from rfl]
    exact gf
  · unfold FeatureInformation.set_fill_value
    rw [ci]
    rfl
  · unfold FeatureInformation.fill_value
    rw [show alookup [("datatype", idt), ("fillValue", "42")] "fillValue" =
      some "42" from rfl]
    exact gi
  · unfold FeatureInformation.set_lower
    rw [cf]
    rfl
  · unfold FeatureInformation.set_upper
    rw [cf]
    rfl


/-- Claim C2 witness: the float case at datatype code H5T_NATIVE_FLOAT and the
integer case at datatype code H5T_INTEGER. -/
theorem c2_range_coercion_round_trip_witness :
    FeatureInformation.set_fill_value ⟨[("datatype", "H5T_NATIVE_FLOAT")]⟩
        (PyVal.float ⟨false, [1, 2], 5⟩) =
      Except.ok ⟨[("datatype", "H5T_NATIVE_FLOAT"), ("fillValue", "12000")]⟩ ∧
    FeatureInformation.fill_value
        ⟨[("datatype", "H5T_NATIVE_FLOAT"), ("fillValue", "12000")]⟩ =
      Except.ok (PyVal.float ⟨false, [1, 2], 5⟩) ∧
    FeatureInformation.set_fill_value ⟨[("datatype", "H5T_INTEGER")]⟩ (PyVal.int 42) =
      Except.ok ⟨[("datatype", "H5T_INTEGER"), ("fillValue", "42")]⟩ ∧
    FeatureInformation.fill_value ⟨[("datatype", "H5T_INTEGER"), ("fillValue", "42")]⟩ =
      Except.ok (PyVal.int 42) ∧
    FeatureInformation.set_lower ⟨[("datatype", "H5T_NATIVE_FLOAT")]⟩
        (PyVal.float ⟨false, [1, 2], 5⟩) =
      Except.ok ⟨[("datatype", "H5T_NATIVE_FLOAT"), ("lower", "12000")]⟩ ∧
    FeatureInformation.set_upper ⟨[("datatype", "H5T_NATIVE_FLOAT")]⟩
        (PyVal.float ⟨false, [1, 2], 5⟩) =
      Except.ok ⟨[("datatype", "H5T_NATIVE_FLOAT"), ("upper", "12000")]⟩ :=
  c2_range_coercion_round_trip "H5T_NATIVE_FLOAT" "H5T_INTEGER" (by decide) (by decide)

/-- Claim C3 counterexample: writing the float 1e-05 (an ordinary CPython double
whose repr is exponential) to a fill_value field classified as float stores the
string 1e-05, which uses exponential notation, refuting that the stored form
never does. -/
theorem c3_exponential_counterexample :
    FeatureInformation.set_fill_value ⟨[("datatype", "H5T_NATIVE_FLOAT")]⟩
        (PyVal.float ⟨false, [1], -4⟩) =
      Except.ok ⟨[("datatype", "H5T_NATIVE_FLOAT"), ("fillValue", "1e-05")]⟩ ∧
    'e' ∈ ("1e-05").data := by
  constructor
  · rfl
  · decide

/-- Claim C3 amended: for float values whose decimal exponent lies in the fixed
range (-4, 16] (so CPython repr is non-exponential) and which are exact integers,
the stored string is exactly the significant digits followed by padding zeros:
fixed notation with the trailing dot-zero stripped (12000.0 stores as 12000);
outside that range CPython repr, hence the stored string, is exponential. -/
theorem c3_amended_fixed_integer_strip (dt : String) (f : PyFloat)
    (hdt : dt ∈ H5T_Types_float)
    (h1 : (-4 : Int) < f.decpt) (h2 : f.decpt ≤ 16)
    (h3 : f.digits ≠ []) (h4 : (f.digits.length : Int) ≤ f.decpt) :
    convert_to_string_based_on_datatype [("datatype", dt)] (PyVal.float f) =
      Except.ok (String.mk (pySign f ++ digitsChars f.digits ++
        zerosChars (f.decpt.toNat - f.digits.length))) := by
  have e1 : python_datatype [("datatype", dt)] = PyType.float :=
    python_datatype_float dt [] hdt
  have hlen : 0 < f.digits.length := List.length_pos.mpr h3
  have hrepr : pyFloatReprAux f = (pySign f ++ digitsChars f.digits ++
      zerosChars (f.decpt.toNat - f.digits.length)) ++ ['.', '0'] := by
    unfold pyFloatReprAux
    rw [if_neg h3, if_neg (show ¬ (f.decpt ≤ -4 ∨ f.decpt > 16) by omega),
      if_neg (show ¬ f.decpt ≤ 0 by omega), if_pos h4]
  have hstrip : stripDotZero (pyFloatReprAux f) = pySign f ++ digitsChars f.digits ++
      zerosChars (f.decpt.toNat - f.digits.length) := by
    rw [hrepr, stripDotZero_append_dot_zero]
  unfold convert_to_string_based_on_datatype
  rw [e1]
  show Except.ok (String.mk (stripDotZero (pyFloatReprAux f))) = _
  rw [hstrip]

/-- Claim C3 amended witness: the float 12000.0 has decimal exponent 5 and is an
exact integer, and stores as the string 12000. -/
theorem c3_amended_fixed_integer_strip_witness :
    convert_to_string_based_on_datatype [("datatype", "H5T_NATIVE_FLOAT")]
        (PyVal.float ⟨false, [1, 2], 5⟩) = Except.ok "12000" :=
  c3_amended_fixed_integer_strip "H5T_NATIVE_FLOAT" ⟨false, [1, 2], 5⟩
    (by decide) (by decide) (by decide) (by decide) (by decide)

/-! ## The chunking discovery and back-propagation pass (s100.py 637-654, 1764-1811)

The container-access base machinery used by these methods lives in s1xx.py, which
is not part of the sources here; those pieces are modelled from the spec where
noted.  The scan loops, the comma-joining setters, the KeyError fallbacks and the
decode retry are transcribed from s100.py itself. -/

/-- A feature instance object: its simple attribute map (`self._attributes`) and
the names of its numbered data groups.  Modelled from the spec: the data-group
names stand for `get_standard_list_properties` resolution of the group pattern,
which lives in the s1xx base class. -/
structure FeatureInstance where
  attrs : List (String × String)
  groupNames : List String
deriving DecidableEq, Repr

/-- An open HDF5 group handle: child dataset paths with the chunk geometry the
container chose for each (`.chunks` is None for a contiguous dataset), plus the
node's written attributes.  A path missing from `datasets` raises KeyError on
indexing. -/
structure HNode where
  datasets : List (String × Option (List Nat))
  attrs : List (String × String)
deriving DecidableEq, Repr

/-- Modelled from the spec: `write_simple_attributes` (declared in the s1xx base
class, spec section 4.4 step 1 and 4.5 step 3) flushes each of the object's simple
attributes onto the container node, leaving the node's datasets untouched. -/
def flushAttrsInto (target : List (String × String)) (attrs : List (String × String)) :
    List (String × String) :=
  attrs.foldl (fun t kv => aset t kv.1 kv.2) target

/-- The comma-joining `instance_chunking` setter (s100.py 736-742) applied to the
tuple read from `.chunks`. -/
def joinChunks (l : List Nat) : String :=
  String.intercalate "," (l.map (fun a => toString a))

/-- The chunking scan loop of `FeatureInstanceBase.write` (s100.py 640-650): for
each data group, `chunking = hdf5_object[group_name + '/values'].chunks`, with
KeyError caught and ignored, so a missing values dataset keeps the previous value
of the loop variable. -/
def scanValuesChunking (node : HNode) : List String → Option (List Nat) → Option (List Nat)
  | [], acc => acc
  | g :: rest, acc =>
      scanValuesChunking node rest
        (match alookup node.datasets (g ++ "/values") with
         | some ch => ch
         | none => acc)

/-- The chunking portion of `FeatureInstanceBase.write` (s100.py 639-654), run
after `super().write` has flushed the instance normally: scan the data groups for
a values dataset, and if a chunk geometry was found, store it comma-joined under
instanceChunking and re-flush only the simple attributes (returned flag records
whether that re-flush happened). -/
def featureInstanceWriteChunkingPass (inst : FeatureInstance) (node : HNode) :
    FeatureInstance × HNode × Bool :=
  match scanValuesChunking node inst.groupNames none with
  | none => (inst, node, false)
  | some chunking =>
      let inst2 : FeatureInstance :=
        { inst with attrs := aset inst.attrs "instanceChunking" (joinChunks chunking) }
      (inst2, { node with attrs := flushAttrsInto node.attrs inst2.attrs }, true)

/-- An HDF5 attribute name as handled at the Python level: either a text string
or a byte string (h5py hands back numpy byte strings for stored feature codes).
A byte string never compares equal to the text string with the same characters,
mirroring Python 3. -/
inductive HStr where
  | text (s : String)
  | bytes (s : String)
deriving DecidableEq, Repr

/-- The feature-code resolution of `S100Root.write` (s100.py 1779-1783 and
1798-1803): `mapping[feat_name]`, and on KeyError `mapping[feat_name.decode()]`.
Only a byte string has `.decode()`; on a text string the retry itself raises
AttributeError, which is not caught. -/
def resolveName (mapping : List (HStr × String)) (featName : HStr) : Except PyErr String :=
  match alookup mapping featName with
  | some v => Except.ok v
  | none =>
      match featName with
      | HStr.bytes s =>
          match alookup mapping (HStr.text s) with
          | some v => Except.ok v
          | none => Except.error PyErr.keyError
      | HStr.text _ => Except.error PyErr.attributeError

/-- A Group_F feature-information dataset object (`FeatureInformationDataset`,
s100.py 1338, with the Chunking mixin of 1312-1335): its simple attribute map and
its hdf5 path.  Modelled from the spec: `_hdf5_path` is maintained by the s1xx
base class. -/
structure GroupFRow where
  attrs : List (String × String)
  hdf5Path : String
deriving DecidableEq, Repr

/-- Splits a character list at a separator, Python `str.split` semantics. -/
def splitCharsOn (sep : Char) : List Char → List (List Char)
  | [] => [[]]
  | c :: rest =>
      let r := splitCharsOn sep rest
      if c = sep then [] :: r
      else
        match r with
        | [] => [[c]]
        | h :: t => (c :: h) :: t

/-- Joins character lists with a separator, Python `sep.join` semantics. -/
def intercalateChars (sep : Char) : List (List Char) → List Char
  | [] => []
  | [x] => x
  | x :: rest => x ++ sep :: intercalateChars sep rest

/-- The relative re-flush path of `S100Root.write` (s100.py 1810):
`"/".join(feat_info_dataset._hdf5_path.split("/")[-2:])`. -/
def lastTwoPathComponents (path : String) : String :=
  String.mk (intercalateChars '/' (((splitCharsOn '/' path.data).reverse.take 2).reverse))

/-- An open HDF5 file for the root pass: node attribute maps by relative path;
indexing a missing path raises KeyError. -/
abbrev HFile : Type := List (String × List (String × String))

/-- `feat_info_dataset.write_simple_attributes(group_object[relative_path])`
(s100.py 1811): index the node (KeyError when absent) and flush the row's simple
attributes onto it. -/
def writeSimpleAttributesAt (file : HFile) (path : String)
    (attrs : List (String × String)) : Except PyErr HFile :=
  match alookup file path with
  | none => Except.error PyErr.keyError
  | some nodeAttrs => Except.ok (aset file path (flushAttrsInto nodeAttrs attrs))

/-- The instance scan of `S100Root.write` (s100.py 1792-1797): for each feature
instance, `chunking = feat_instance.instance_chunking`, the bare except treating
an unset attribute (KeyError) as keep-previous.  The last instance with the
attribute set wins. -/
def scanInstanceChunking : List FeatureInstance → Option String → Option String
  | [], acc => acc
  | i :: rest, acc =>
      scanInstanceChunking rest
        (match alookup i.attrs "instanceChunking" with
         | some v => some v
         | none => acc)

/-- The state S100Root.write works over, after `super().write` has run: the
Group_F featureCode list, the feature-code-to-property-name mappings for the root
and for Group_F (modelled from the spec: `get_standard_properties_mapping` lives
in the s1xx base class and is keyed by the HDF5 attribute names), the feature
containers in the root with their instance lists, and the Group_F dataset rows. -/
structure S100RootModel where
  featureCodes : List HStr
  propMapping : List (HStr × String)
  containers : List (String × List FeatureInstance)
  featInfoMapping : List (HStr × String)
  featInfoRows : List (String × GroupFRow)
deriving DecidableEq, Repr

/-- One iteration of the back-propagation loop of `S100Root.write` (s100.py
1778-1811) for a single feature code: resolve the feature container's property
name (with the decode retry), scan its instances for instanceChunking, and if one
was set, resolve the Group_F dataset name, store the chunking string on that row
(the Chunking mixin setter passes a string through unchanged) and re-flush the
row's simple attributes at its relative path. -/
def processFeatureCode (root : S100RootModel) (rows : List (String × GroupFRow))
    (file : HFile) (featName : HStr) :
    Except PyErr (List (String × GroupFRow) × HFile) :=
  match resolveName root.propMapping featName with
  | Except.error e => Except.error e
  | Except.ok pythonName =>
      match alookup root.containers pythonName with
      | none => Except.error PyErr.keyError
      | some listOfFeatures =>
          match scanInstanceChunking listOfFeatures none with
          | none => Except.ok (rows, file)
          | some chunking =>
              match resolveName root.featInfoMapping featName with
              | Except.error e => Except.error e
              | Except.ok groupfName =>
                  match alookup rows groupfName with
                  | none => Except.error PyErr.keyError
                  | some ds =>
                      let ds2 : GroupFRow :=
                        { ds with attrs := aset ds.attrs "chunking" chunking }
                      match writeSimpleAttributesAt file
                          (lastTwoPathComponents ds2.hdf5Path) ds2.attrs with
                      | Except.error e => Except.error e
                      | Except.ok file2 =>
                          Except.ok (aset rows groupfName ds2, file2)

/-- The loop of `S100Root.write` over the Group_F featureCode list. -/
def goFeatureCodes (root : S100RootModel) : List HStr → List (String × GroupFRow) →
    HFile → Except PyErr (List (String × GroupFRow) × HFile)
  | [], rows, file => Except.ok (rows, file)
  | c :: rest, rows, file =>
      match processFeatureCode root rows file c with
      | Except.error e => Except.error e
      | Except.ok (rows2, file2) => goFeatureCodes root rest rows2 file2

/-- The chunking back-propagation portion of `S100Root.write` (s100.py 1764-1811),
run after `super().write`, in the branch where a Group_F feature-information
object is present. -/
def s100RootWriteChunkingPass (root : S100RootModel) (file : HFile) :
    Except PyErr (List (String × GroupFRow) × HFile) :=
  goFeatureCodes root root.featureCodes root.featInfoRows file

/-! ## Theorems about the chunking pass (claims C1, C4, C5, C6) -/

theorem alookup_cons_self {α β : Type} [DecidableEq α] (k : α) (v : β)
    (rest : List (α × β)) : alookup ((k, v) :: rest) k = some v := by
  simp [alookup]

theorem scanValuesChunking_eq_of_no_values (node : HNode) :
    ∀ (groups : List String),
      (∀ g ∈ groups, alookup node.datasets (g ++ "/values") = none) →
      ∀ acc, scanValuesChunking node groups acc = acc := by
  intro groups
  induction groups with
  | nil => intro _ acc; rfl
  | cons g rest ih =>
      intro h acc
      have hg : alookup node.datasets (g ++ "/values") = none :=
        h g (List.mem_cons_self g rest)
      simp only [scanValuesChunking, hg]
      exact ih (fun g2 hg2 => h g2 (List.mem_cons_of_mem g hg2)) acc

theorem scanInstanceChunking_eq_getLast (insts : List FeatureInstance) :
    ∀ acc, scanInstanceChunking insts acc =
      match (insts.filterMap (fun i => alookup i.attrs "instanceChunking")).getLast? with
      | some v => some v
      | none => acc := by
  induction insts with
  | nil => intro acc; rfl
  | cons i rest ih =>
      intro acc
      simp only [scanInstanceChunking, List.filterMap_cons]
      cases hl : alookup i.attrs "instanceChunking" with
      | none => simp only [ih]
      | some v =>
          rw [ih (some v)]
          cases hfm : (rest.filterMap fun j => alookup j.attrs "instanceChunking") with
          | nil => simp
          | cons x xs =>
              rw [List.getLast?_cons_cons]
              cases hxx : (x :: xs).getLast? with
              | none =>
                  have hs := List.getLast?_isSome.mpr (List.cons_ne_nil x xs)
                  rw [hxx] at hs
                  simp at hs
              | some w => simp

/-- Claim C6: when none of a feature instance's data groups have a child dataset
named values, the chunking portion of FeatureInstanceBase.write leaves the
instance attributes (instanceChunking included) and the container node untouched,
performs no simple-attribute re-flush, and raises nothing: every KeyError of the
scan is caught and the update branch is skipped. -/
theorem c6_no_values_dataset_noop (inst : FeatureInstance) (node : HNode)
    (h : ∀ g ∈ inst.groupNames, alookup node.datasets (g ++ "/values") = none) :
    featureInstanceWriteChunkingPass inst node = (inst, node, false) := by
  unfold featureInstanceWriteChunkingPass
  rw [scanValuesChunking_eq_of_no_values node inst.groupNames h none]

/-- Claim C6 witness: an instance with one data group whose node holds a values
dataset only under a different group name. -/
theorem c6_no_values_dataset_noop_witness :
    featureInstanceWriteChunkingPass ⟨[("numGRP", "1")], ["Group_001"]⟩
        ⟨[("Group_002/values", some [8, 8])], []⟩ =
      (⟨[("numGRP", "1")], ["Group_001"]⟩, ⟨[("Group_002/values", some [8, 8])], []⟩, false) :=
  c6_no_values_dataset_noop ⟨[("numGRP", "1")], ["Group_001"]⟩
    ⟨[("Group_002/values", some [8, 8])], []⟩ (by decide)

/-- Claim C1: one feature instance whose single data group holds a values dataset
chunked (150, 200): the instance pass stores instanceChunking = 150,200 and
re-flushes only the simple attributes (the node's datasets are untouched), and
the root pass copies that value onto the chunking attribute of the matching
Group_F dataset row and re-flushes just that row's simple attributes at its
relative path. -/
theorem c1_chunking_propagation (inst : FeatureInstance) (node : HNode) (g : String)
    (code : HStr) (pname gname : String) (row : GroupFRow) (file : HFile)
    (nattrs : List (String × String))
    (hg : inst.groupNames = [g])
    (hd : alookup node.datasets (g ++ "/values") = some (some [150, 200]))
    (hfile : alookup file (lastTwoPathComponents row.hdf5Path) = some nattrs) :
    featureInstanceWriteChunkingPass inst node =
      ({ inst with attrs := aset inst.attrs "instanceChunking" "150,200" },
       { node with attrs := (flushAttrsInto node.attrs
           (aset inst.attrs "instanceChunking" "150,200")) },
       true) ∧
    alookup (aset inst.attrs "instanceChunking" "150,200") "instanceChunking" =
      some "150,200" ∧
    s100RootWriteChunkingPass
      ⟨[code], [(code, pname)],
       [(pname, [{ inst with attrs := aset inst.attrs "instanceChunking" "150,200" }])],
       [(code, gname)], [(gname, row)]⟩ file =
      Except.ok ([(gname, { row with attrs := aset row.attrs "chunking" "150,200" })],
        aset file (lastTwoPathComponents row.hdf5Path)
          (flushAttrsInto nattrs (aset row.attrs "chunking" "150,200"))) := by
  have hscan : scanValuesChunking node inst.groupNames none = some [150, 200] := by
    rw [hg]
    simp only [scanValuesChunking, hd]
  refine ⟨?_, alookup_aset_self _ _ _, ?_⟩
  · unfold featureInstanceWriteChunkingPass
    rw [hscan]
    rfl
  · have hres1 : resolveName [(code, pname)] code = Except.ok pname := by
      unfold resolveName
      rw [alookup_cons_self]
    have hres2 : resolveName [(code, gname)] code = Except.ok gname := by
      unfold resolveName
      rw [alookup_cons_self]
    have hscan2 : scanInstanceChunking
        [{ inst with attrs := aset inst.attrs "instanceChunking" "150,200" }] none =
        some "150,200" := by
      simp only [scanInstanceChunking, alookup_aset_self]
    simp only [s100RootWriteChunkingPass, goFeatureCodes, processFeatureCode,
      writeSimpleAttributesAt, hres1, hres2, hscan2, alookup_cons_self, hfile]
    simp [aset]

/-- Claim C1 witness: a concrete bathymetry-style container with one instance,
one data group and a values dataset chunked (150, 200). -/
theorem c1_chunking_propagation_witness :
    featureInstanceWriteChunkingPass ⟨[("numGRP", "1")], ["Group_001"]⟩
        ⟨[("Group_001/values", some [150, 200])], []⟩ =
      (⟨aset [("numGRP", "1")] "instanceChunking" "150,200", ["Group_001"]⟩,
       ⟨[("Group_001/values", some [150, 200])],
        flushAttrsInto [] (aset [("numGRP", "1")] "instanceChunking" "150,200")⟩,
       true) ∧
    alookup (aset [("numGRP", "1")] "instanceChunking" "150,200") "instanceChunking" =
      some "150,200" ∧
    s100RootWriteChunkingPass
      ⟨[HStr.text "BathymetryCoverage"],
       [(HStr.text "BathymetryCoverage", "bathymetry_coverage")],
       [("bathymetry_coverage",
         [⟨aset [("numGRP", "1")] "instanceChunking" "150,200", ["Group_001"]⟩])],
       [(HStr.text "BathymetryCoverage", "bathymetry_coverage_dataset")],
       [("bathymetry_coverage_dataset", ⟨[("code", "depth")], "/Group_F/BathymetryCoverage"⟩)]⟩
      [("Group_F/BathymetryCoverage", [("chunking", "100,100")])] =
      Except.ok ([("bathymetry_coverage_dataset",
          ⟨aset [("code", "depth")] "chunking" "150,200", "/Group_F/BathymetryCoverage"⟩)],
        aset [("Group_F/BathymetryCoverage", [("chunking", "100,100")])]
          (lastTwoPathComponents "/Group_F/BathymetryCoverage")
          (flushAttrsInto [("chunking", "100,100")] (aset [("code", "depth")] "chunking" "150,200"))) :=
  c1_chunking_propagation ⟨[("numGRP", "1")], ["Group_001"]⟩
    ⟨[("Group_001/values", some [150, 200])], []⟩ "Group_001"
    (HStr.text "BathymetryCoverage") "bathymetry_coverage" "bathymetry_coverage_dataset"
    ⟨[("code", "depth")], "/Group_F/BathymetryCoverage"⟩
    [("Group_F/BathymetryCoverage", [("chunking", "100,100")])]
    [("chunking", "100,100")] rfl (by decide) (by decide)

/-- Claim C4: with several instances under one container having instanceChunking
set, the root pass writes the value of the last-visited set instance onto the
matching Group_F row (the scan overwrites its loop variable on every instance
that has the attribute), so no earlier instance's differing value appears there. -/
theorem c4_last_instance_wins (insts : List FeatureInstance) (code : HStr)
    (pname gname : String) (row : GroupFRow) (file : HFile)
    (nattrs : List (String × String)) (vs : List String) (c : String)
    (hvs : insts.filterMap (fun i => alookup i.attrs "instanceChunking") = vs)
    (_hlen : 2 ≤ vs.length)
    (hlast : vs.getLast? = some c)
    (hfile : alookup file (lastTwoPathComponents row.hdf5Path) = some nattrs) :
    s100RootWriteChunkingPass
      ⟨[code], [(code, pname)], [(pname, insts)], [(code, gname)], [(gname, row)]⟩ file =
      Except.ok ([(gname, { row with attrs := aset row.attrs "chunking" c })],
        aset file (lastTwoPathComponents row.hdf5Path)
          (flushAttrsInto nattrs (aset row.attrs "chunking" c))) ∧
    alookup (aset row.attrs "chunking" c) "chunking" = some c ∧
    (∀ v ∈ vs.dropLast, v ≠ c →
      alookup (aset row.attrs "chunking" c) "chunking" ≠ some v) := by
  have hscan : scanInstanceChunking insts none = some c := by
    rw [scanInstanceChunking_eq_getLast insts none, hvs, hlast]
  have hres1 : resolveName [(code, pname)] code = Except.ok pname := by
    unfold resolveName
    rw [alookup_cons_self]
  have hres2 : resolveName [(code, gname)] code = Except.ok gname := by
    unfold resolveName
    rw [alookup_cons_self]
  refine ⟨?_, alookup_aset_self _ _ _, ?_⟩
  · simp only [s100RootWriteChunkingPass, goFeatureCodes, processFeatureCode,
      writeSimpleAttributesAt, hres1, hres2, hscan, alookup_cons_self, hfile]
    simp [aset]
  · intro v _ hne
    rw [alookup_aset_self]
    intro hc
    exact hne (Option.some.inj hc).symm

/-- Claim C4 witness: two instances with instanceChunking 10,10 then 150,200;
the Group_F row receives 150,200 and not 10,10. -/
theorem c4_last_instance_wins_witness :
    s100RootWriteChunkingPass
      ⟨[HStr.text "BathymetryCoverage"],
       [(HStr.text "BathymetryCoverage", "bathymetry_coverage")],
       [("bathymetry_coverage",
         [⟨[("instanceChunking", "10,10")], []⟩, ⟨[("instanceChunking", "150,200")], []⟩])],
       [(HStr.text "BathymetryCoverage", "bathymetry_coverage_dataset")],
       [("bathymetry_coverage_dataset", ⟨[("code", "depth")], "/Group_F/BathymetryCoverage"⟩)]⟩
      [("Group_F/BathymetryCoverage", [])] =
      Except.ok ([("bathymetry_coverage_dataset",
          ⟨aset [("code", "depth")] "chunking" "150,200", "/Group_F/BathymetryCoverage"⟩)],
        aset [("Group_F/BathymetryCoverage", [])]
          (lastTwoPathComponents "/Group_F/BathymetryCoverage")
          (flushAttrsInto [] (aset [("code", "depth")] "chunking" "150,200"))) ∧
    alookup (aset [("code", "depth")] "chunking" "150,200") "chunking" = some "150,200" ∧
    (∀ v ∈ (["10,10", "150,200"] : List String).dropLast, v ≠ "150,200" →
      alookup (aset [("code", "depth")] "chunking" "150,200") "chunking" ≠ some v) :=
  c4_last_instance_wins
    [⟨[("instanceChunking", "10,10")], []⟩, ⟨[("instanceChunking", "150,200")], []⟩]
    (HStr.text "BathymetryCoverage") "bathymetry_coverage" "bathymetry_coverage_dataset"
    ⟨[("code", "depth")], "/Group_F/BathymetryCoverage"⟩
    [("Group_F/BathymetryCoverage", [])] [] ["10,10", "150,200"] "150,200"
    (by decide) (by decide) (by decide) (by decide)

/-- Claim C5 counterexample: a byte-string-keyed mapping with a text-string
feature code fails: the direct lookup raises KeyError and the retry calls decode
on a text string, raising AttributeError instead of resolving, so the resolution
does not succeed for a byte-string-keyed mapping. -/
theorem c5_encoding_retry_counterexample :
    s100RootWriteChunkingPass
      ⟨[HStr.text "BathymetryCoverage"],
       [(HStr.bytes "BathymetryCoverage", "bathymetry_coverage")],
       [("bathymetry_coverage", [⟨[("instanceChunking", "150,200")], []⟩])],
       [(HStr.bytes "BathymetryCoverage", "bathymetry_coverage_dataset")],
       [("bathymetry_coverage_dataset", ⟨[], "/Group_F/BathymetryCoverage"⟩)]⟩
      [("Group_F/BathymetryCoverage", [])] =
      Except.error PyErr.attributeError := by
  rfl

/-- Claim C5 amended: the retry is one-directional.  Against a text-string-keyed
mapping both encodings of the feature code resolve: a text code directly, a byte
code through the decode retry; a text code against a byte-string-keyed mapping is
not retried (decode raises AttributeError, shown by the counterexample). -/
theorem c5_amended_decode_retry (m : List (HStr × String)) (s v : String)
    (h1 : alookup m (HStr.bytes s) = none)
    (h2 : alookup m (HStr.text s) = some v) :
    resolveName m (HStr.bytes s) = Except.ok v ∧
    resolveName m (HStr.text s) = Except.ok v := by
  constructor
  · unfold resolveName
    rw [h1]
    show (match alookup m (HStr.text s) with
          | some w => Except.ok w
          | none => Except.error PyErr.keyError) = Except.ok v
    rw [h2]
  · unfold resolveName
    rw [h2]

/-- Claim C5 amended witness: the text-keyed mapping of the real write path
resolves both the text and the byte form of BathymetryCoverage. -/
theorem c5_amended_decode_retry_witness :
    resolveName [(HStr.text "BathymetryCoverage", "bathymetry_coverage")]
        (HStr.bytes "BathymetryCoverage") = Except.ok "bathymetry_coverage" ∧
    resolveName [(HStr.text "BathymetryCoverage", "bathymetry_coverage")]
        (HStr.text "BathymetryCoverage") = Except.ok "bathymetry_coverage" :=
  c5_amended_decode_retry [(HStr.text "BathymetryCoverage", "bathymetry_coverage")]
    "BathymetryCoverage" "bathymetry_coverage" (by decide) (by decide)

/-! ## S-102 grid ingestion (src/s100py/s102/utils.py)

Grids are 2-D numpy float arrays; they are modelled as rectangular lists of lists
of rationals.  The arrays used in the claims hold values that are exact in both
float32 and float64 (integers and halves well within range), so rational
arithmetic coincides with the numpy arithmetic on them. -/

/-- A 2-D array of float cell values. -/
abbrev Grid : Type := List (List Rat)

/-- The numpy shape of a rectangular 2-D array. -/
def gridShape (g : Grid) : Nat × Nat := (g.length, (g.headD []).length)

/-- `numpy.full(shape, value)`. -/
def npFull (shape : Nat × Nat) (v : Rat) : Grid :=
  List.replicate shape.1 (List.replicate shape.2 v)

/-- `.max()` of a 1-D selection: numpy raises ValueError on an empty reduction. -/
def npMax (l : List Rat) : Except PyErr Rat :=
  match l with
  | [] => Except.error (PyErr.valueError
      "zero-size array to reduction operation maximum which has no identity")
  | x :: xs => Except.ok (xs.foldl max x)

/-- `.min()` of a 1-D selection: numpy raises ValueError on an empty reduction. -/
def npMin (l : List Rat) : Except PyErr Rat :=
  match l with
  | [] => Except.error (PyErr.valueError
      "zero-size array to reduction operation minimum which has no identity")
  | x :: xs => Except.ok (xs.foldl min x)

/-- `grid[grid != nodata]`: the 1-D selection of cells differing from the marker. -/
def gridSelectNe (g : Grid) (v : Rat) : List Rat :=
  (List.flatten g).filter (fun x => decide (x ≠ v))

/-- `numpy.fliplr`. -/
def npFliplr (g : Grid) : Grid := g.map List.reverse

/-- `numpy.flipud`. -/
def npFlipud (g : Grid) : Grid := g.reverse

/-- `grid[grid == old] = new` on a copy. -/
def npWhereEqSet (g : Grid) (old new : Rat) : Grid :=
  g.map (List.map (fun x => if x = old then new else x))

/-- The grids and statistics produced by a successful `from_arrays` run. -/
structure FromArraysResult where
  depth_max : Rat
  depth_min : Rat
  uncertainty_max : Rat
  uncertainty_min : Rat
  depth : Grid
  uncertainty : Grid
deriving DecidableEq, Repr

/-- The array-processing core of `from_arrays` (utils.py 176-230): a None
uncertainty grid is synthesized with `numpy.full(depth_grid.shape, nodata_value)`;
unequal shapes raise S102Exception; the depth and uncertainty min/max are reduced
over the non-nodata selections (max before min, depth before uncertainty, as in
the source); the grids are optionally mirrored; and when the nodata marker
differs from the depth row's declared fill value, nodata cells of the depth grid
are replaced by the depth fill value and nodata cells of the uncertainty grid by
the uncertainty fill value.  Exceptions abort before the value arrays are
produced. -/
def from_arrays (depth_grid : Grid) (uncert_grid : Option Grid) (nodata_value : Rat)
    (flip_x flip_y : Bool) (depth_fill uncert_fill : Rat) :
    Except PyErr FromArraysResult :=
  let u : Grid :=
    match uncert_grid with
    | none => npFull (gridShape depth_grid) nodata_value
    | some ug => ug
  if gridShape depth_grid ≠ gridShape u then
    Except.error (PyErr.s102Exception "Depth and Uncertainty grids have different shapes")
  else
    match npMax (gridSelectNe depth_grid nodata_value) with
    | Except.error e => Except.error e
    | Except.ok depth_max =>
        match npMin (gridSelectNe depth_grid nodata_value) with
        | Except.error e => Except.error e
        | Except.ok depth_min =>
            match npMax (gridSelectNe u nodata_value) with
            | Except.error e => Except.error e
            | Except.ok uncertainty_max =>
                match npMin (gridSelectNe u nodata_value) with
                | Except.error e => Except.error e
                | Except.ok uncertainty_min =>
                    let dg1 := if flip_x then npFliplr depth_grid else depth_grid
                    let ug1 := if flip_x then npFliplr u else u
                    let dg2 := if flip_y then npFlipud dg1 else dg1
                    let ug2 := if flip_y then npFlipud ug1 else ug1
                    if nodata_value ≠ depth_fill then
                      Except.ok ⟨depth_max, depth_min, uncertainty_max, uncertainty_min,
                        npWhereEqSet dg2 nodata_value depth_fill,
                        npWhereEqSet ug2 nodata_value uncert_fill⟩
                    else
                      Except.ok ⟨depth_max, depth_min, uncertainty_max, uncertainty_min,
                        dg2, ug2⟩

/-- The flip flags and bounding box computed by `from_arrays_with_metadata`
(utils.py 270-310): flips from the sign of each resolution component, the
node-registered far corner at origin + res * (count - 1), and the root bounds
west/east = min/max of the x corners, south/north = min/max of the y corners. -/
structure GridGeometry where
  flip_x : Bool
  flip_y : Bool
  west_bound_longitude : Rat
  east_bound_longitude : Rat
  south_bound_latitude : Rat
  north_bound_latitude : Rat
deriving DecidableEq, Repr

/-- The geometry fragment of `from_arrays_with_metadata` (utils.py 270-310). -/
def from_arrays_with_metadata_geometry (shape : Nat × Nat) (origin res : Rat × Rat) :
    GridGeometry :=
  let res_x := res.1
  let res_y := res.2
  let flip_x := if res_x < 0 then true else false
  let flip_y := if res_y < 0 then true else false
  let nx := shape.1
  let ny := shape.2
  let corner_x := origin.1
  let corner_y := origin.2
  let opposite_corner_x := corner_x + res_x * ((nx : Rat) - 1)
  let opposite_corner_y := corner_y + res_y * ((ny : Rat) - 1)
  { flip_x := flip_x, flip_y := flip_y,
    west_bound_longitude := min corner_x opposite_corner_x,
    east_bound_longitude := max corner_x opposite_corner_x,
    south_bound_latitude := min corner_y opposite_corner_y,
    north_bound_latitude := max corner_y opposite_corner_y }

/-- `get_valid_epsg` (utils.py 447-453): WGS84 geographic, the two polar
stereographic codes, and the UTM north and south zone ranges. -/
def get_valid_epsg : List Int :=
  [4326, 5041, 5042] ++ (List.range 60).map (fun i : Nat => 32601 + (i : Int))
    ++ (List.range 60).map (fun i : Nat => 32701 + (i : Int))

/-- The horizontal-datum handling of `from_arrays_with_metadata` (utils.py
313-320): when the metadata supplies horizontalDatumValue (or overwrite is set),
coerce it to int (absent maps to 0), store it on the root when it is in the
allow-list, otherwise raise; without that key and without overwrite the root
value is left as it was. -/
def from_arrays_with_metadata_datum_check (metadataDatumValue : Option Int)
    (overwrite : Bool) (prior : Option Int) : Except PyErr (Option Int) :=
  if metadataDatumValue.isSome || overwrite then
    let source_epsg := metadataDatumValue.getD 0
    if source_epsg ∈ get_valid_epsg then Except.ok (some source_epsg)
    else
      Except.error (PyErr.valueError ("The provided EPSG code " ++ toString source_epsg ++
        " is not within the S102 specified values."))
  else Except.ok prior

/-! ## Theorems about grid ingestion (claims C7, C8, C9, C10) -/

/-- Claim C7: for a (100, 50) depth array with origin (10, 20) and resolution
(0.5, -0.5), the node-registered far corner gives south = -4.5, north = 20,
west = 10, east = 59.5, and the flip flags hold exactly when the corresponding
resolution component is negative, so flip_y is passed true here. -/
theorem c7_grid_ingestion_bbox :
    (from_arrays_with_metadata_geometry (100, 50) (10, 20) (0.5, -0.5)).south_bound_latitude
        = -4.5 ∧
    (from_arrays_with_metadata_geometry (100, 50) (10, 20) (0.5, -0.5)).north_bound_latitude
        = 20 ∧
    (from_arrays_with_metadata_geometry (100, 50) (10, 20) (0.5, -0.5)).west_bound_longitude
        = 10 ∧
    (from_arrays_with_metadata_geometry (100, 50) (10, 20) (0.5, -0.5)).east_bound_longitude
        = 59.5 ∧
    (from_arrays_with_metadata_geometry (100, 50) (10, 20) (0.5, -0.5)).flip_y = true ∧
    (from_arrays_with_metadata_geometry (100, 50) (10, 20) (0.5, -0.5)).flip_x = false ∧
    (∀ (shape : Nat × Nat) (origin res : Rat × Rat),
      ((from_arrays_with_metadata_geometry shape origin res).flip_x = true ↔ res.1 < 0) ∧
      ((from_arrays_with_metadata_geometry shape origin res).flip_y = true ↔ res.2 < 0)) := by
  refine ⟨?_, ?_, ?_, ?_, ?_, ?_, ?_⟩
  · simp only [from_arrays_with_metadata_geometry, min_def, max_def]
    norm_num
  · simp only [from_arrays_with_metadata_geometry, min_def, max_def]
    norm_num
  · simp only [from_arrays_with_metadata_geometry, min_def, max_def]
    norm_num
  · simp only [from_arrays_with_metadata_geometry, min_def, max_def]
    norm_num
  · simp only [from_arrays_with_metadata_geometry]
    norm_num
  · simp only [from_arrays_with_metadata_geometry]
    norm_num
  · intro shape origin res
    constructor
    · by_cases h : res.1 < 0 <;> simp [from_arrays_with_metadata_geometry, h]
    · by_cases h : res.2 < 0 <;> simp [from_arrays_with_metadata_geometry, h]

/-- Claim C8: the datum check of from_arrays_with_metadata accepts EPSG 32601,
storing it on the root, rejects EPSG 9999 with the invalid-datum-code error (a
Python ValueError in the source), and the allow-list is exactly 4326, 5041, 5042,
32601-32660 and 32701-32760. -/
theorem c8_datum_validation :
    (∀ (overwrite : Bool) (prior : Option Int),
      from_arrays_with_metadata_datum_check (some 32601) overwrite prior =
        Except.ok (some 32601) ∧
      from_arrays_with_metadata_datum_check (some 9999) overwrite prior =
        Except.error (PyErr.valueError
          "The provided EPSG code 9999 is not within the S102 specified values.")) ∧
    (∀ code : Int, code ∈ get_valid_epsg ↔
      (code = 4326 ∨ code = 5041 ∨ code = 5042 ∨
        (32601 ≤ code ∧ code ≤ 32660) ∨ (32701 ≤ code ∧ code ≤ 32760))) := by
  constructor
  · intro overwrite prior
    have h1 : (32601 : Int) ∈ get_valid_epsg := by decide
    have h2 : (9999 : Int) ∉ get_valid_epsg := by decide
    constructor
    · simp [from_arrays_with_metadata_datum_check, h1]
    · simp [from_arrays_with_metadata_datum_check, h2]
      rfl
  · intro code
    constructor
    · intro h
      simp only [get_valid_epsg, List.mem_append, List.mem_cons, List.not_mem_nil,
        or_false, List.mem_map, List.mem_range] at h
      rcases h with (h | ⟨i, hi, rfl⟩) | ⟨i, hi, rfl⟩ <;> omega
    · rintro (rfl | rfl | rfl | ⟨h1, h2⟩ | ⟨h1, h2⟩)
      · decide
      · decide
      · decide
      · simp only [get_valid_epsg, List.mem_append, List.mem_map, List.mem_range]
        exact Or.inl (Or.inr ⟨(code - 32601).toNat, by omega, by omega⟩)
      · simp only [get_valid_epsg, List.mem_append, List.mem_map, List.mem_range]
        exact Or.inr ⟨(code - 32701).toNat, by omega, by omega⟩

/-- Claim C8 witness: instantiating the quantified parts at overwrite = true,
prior = none and code = 32660. -/
theorem c8_datum_validation_witness :
    (from_arrays_with_metadata_datum_check (some 32601) true none =
        Except.ok (some 32601) ∧
      from_arrays_with_metadata_datum_check (some 9999) true none =
        Except.error (PyErr.valueError
          "The provided EPSG code 9999 is not within the S102 specified values.")) ∧
    ((32660 : Int) ∈ get_valid_epsg ↔
      ((32660 : Int) = 4326 ∨ (32660 : Int) = 5041 ∨ (32660 : Int) = 5042 ∨
        (32601 ≤ (32660 : Int) ∧ (32660 : Int) ≤ 32660) ∨
        (32701 ≤ (32660 : Int) ∧ (32660 : Int) ≤ 32760))) :=
  ⟨c8_datum_validation.1 true none, c8_datum_validation.2 32660⟩

/-- Claim C9: whenever the depth grid and a supplied uncertainty grid have
different shapes, from_arrays raises the shape-mismatch S102Exception before any
value array is produced. -/
theorem c9_shape_mismatch (depth uncert : Grid) (nodata depth_fill uncert_fill : Rat)
    (fx fy : Bool) (h : gridShape depth ≠ gridShape uncert) :
    from_arrays depth (some uncert) nodata fx fy depth_fill uncert_fill =
      Except.error (PyErr.s102Exception
        "Depth and Uncertainty grids have different shapes") := by
  simp only [from_arrays]
  rw [if_pos h]

/-- Claim C9 witness: a (10, 10) depth grid against a (10, 9) uncertainty grid. -/
theorem c9_shape_mismatch_witness :
    from_arrays (npFull (10, 10) 0) (some (npFull (10, 9) 0)) (-9999) false false
        1000000 1000000 =
      Except.error (PyErr.s102Exception
        "Depth and Uncertainty grids have different shapes") :=
  c9_shape_mismatch (npFull (10, 10) 0) (npFull (10, 9) 0) (-9999) 1000000 1000000
    false false (by decide)

theorem filter_ne_self_replicate (n : Nat) (v : Rat) :
    (List.replicate n v).filter (fun x => decide (x ≠ v)) = [] := by
  induction n with
  | zero => rfl
  | succ k ih => simp [List.replicate_succ, List.filter, ih]

theorem gridSelectNe_replicate_replicate (n c : Nat) (v : Rat) :
    gridSelectNe (List.replicate n (List.replicate c v)) v = [] := by
  induction n with
  | zero => rfl
  | succ k ih =>
      rw [List.replicate_succ]
      simp only [gridSelectNe, List.flatten_cons, List.filter_append] at ih ⊢
      rw [filter_ne_self_replicate, ih]
      rfl

theorem gridSelectNe_npFull (s : Nat × Nat) (v : Rat) :
    gridSelectNe (npFull s v) v = [] :=
  gridSelectNe_replicate_replicate s.1 s.2 v

theorem gridShape_npFull_of_gridShape (g : Grid) (v : Rat) :
    gridShape (npFull (gridShape g) v) = gridShape g := by
  cases g with
  | nil => rfl
  | cons r rest => simp [gridShape, npFull, List.replicate_succ]

/-- Claim C10 counterexample: from_arrays with uncert_grid = None on an ordinary
depth grid raises ValueError (the nodata-filled synthesized uncertainty array
makes the non-nodata selection empty, and numpy refuses the empty max reduction),
so an error is raised and the fill-value substitution step is never reached. -/
theorem c10_none_uncertainty_counterexample :
    from_arrays [[5, -9999], [7, 3]] none (-9999) false false 1000000 1000000 =
      Except.error (PyErr.valueError
        "zero-size array to reduction operation maximum which has no identity") := by
  rfl

/-- Claim C10 amended: with uncert_grid = None the uncertainty array is
synthesized as numpy.full of the nodata marker (not zeros), so the shape check
indeed cannot fail; but precisely because every synthesized cell equals nodata,
the uncertainty min/max reduction over non-nodata cells is over an empty
selection and from_arrays raises ValueError there whenever the depth grid itself
has at least one non-nodata cell, before any fill-value substitution. -/
theorem c10_amended_none_uncertainty_raises (depth : Grid)
    (nodata depth_fill uncert_fill : Rat) (fx fy : Bool)
    (h : gridSelectNe depth nodata ≠ []) :
    (∀ row ∈ npFull (gridShape depth) nodata, ∀ x ∈ row, x = nodata) ∧
    gridShape (npFull (gridShape depth) nodata) = gridShape depth ∧
    from_arrays depth none nodata fx fy depth_fill uncert_fill =
      Except.error (PyErr.valueError
        "zero-size array to reduction operation maximum which has no identity") := by
  refine ⟨?_, gridShape_npFull_of_gridShape depth nodata, ?_⟩
  · intro row hrow x hx
    rw [npFull, List.mem_replicate] at hrow
    rw [hrow.2, List.mem_replicate] at hx
    exact hx.2
  · obtain ⟨m, rest, hsel⟩ := List.exists_cons_of_ne_nil h
    have hne : ¬ gridShape depth ≠ gridShape (npFull (gridShape depth) nodata) :=
      fun hc => hc (gridShape_npFull_of_gridShape depth nodata).symm
    simp only [from_arrays]
    rw [if_neg hne, hsel, gridSelectNe_npFull]
    rfl

/-- Claim C10 amended witness: a 2 by 2 depth grid with three real soundings and
one nodata cell. -/
theorem c10_amended_none_uncertainty_raises_witness :
    (∀ row ∈ npFull (gridShape [[5, -9999], [7, 3]]) (-9999 : Rat),
      ∀ x ∈ row, x = (-9999 : Rat)) ∧
    gridShape (npFull (gridShape [[5, -9999], [7, 3]]) (-9999 : Rat)) =
      gridShape [[5, -9999], [7, 3]] ∧
    from_arrays [[5, -9999], [7, 3]] none (-9999) true true 1000000 500000 =
      Except.error (PyErr.valueError
        "zero-size array to reduction operation maximum which has no identity") :=
  c10_amended_none_uncertainty_raises [[5, -9999], [7, 3]] (-9999) 1000000 500000
    true true (by decide)
